import Mathlib

/-!
Shallow embedding of `src/intel_agent.py`, a five-stage competitive
intelligence pipeline built on a linear state graph.  Console output,
HTTP transport and HTML parsing internals are external collaborators:
the fetch of a URL is modelled as an oracle `Fetcher` returning either
a parsed document (the document-order list of its elements) or `none`
(any exception raised inside the fetch/parse step), and an element
carries the data the scraper inspects: tag name, CSS class tokens and
its stripped text.
-/

set_option maxRecDepth 8000

namespace IntelAgent

/-- An HTML element as the scraper sees it: tag name, the list of CSS class
tokens of its class attribute (empty when the attribute is absent), and the
text that `get_text(strip=True)` yields. -/
structure Element where
  tag : String
  classes : List String
  text : String
deriving DecidableEq

/-- A fetched document: its elements in document order, as traversed by
`find_all`. -/
abbrev Doc := List Element

/-- The fetch oracle: `requests.get` followed by HTML parsing.  `none` models
any exception raised by the fetch or the parse (timeout, connection error,
etc.); `some doc` is a successful response parsed into its elements. -/
def Fetcher : Type := String → Option Doc

/-- One scraped item, the dict of title and source appended to `job_data`
or `news_data`. -/
structure ScrapedEntry where
  title : String
  source : String
deriving DecidableEq

/-- `IntelState` (line 17): the TypedDict threaded through the stages. -/
structure IntelState where
  competitor : String
  target_urls : List String
  job_data : List ScrapedEntry
  news_data : List ScrapedEntry
  insights : String
  use_mcp : Bool
deriving DecidableEq

/-- Python's `str.lower()` (ASCII case mapping), defined structurally on the
character list so that it evaluates inside the kernel. -/
def lower (s : String) : String :=
  ⟨s.data.map Char.toLower⟩

/-- Python's character slicing `s[:n]`: the first `n` characters, defined
structurally on the character list (it agrees with `String.take`, by
`String.take_eq`). -/
def strTake (s : String) (n : Nat) : String :=
  ⟨s.data.take n⟩

/-- Substring occurrence on character lists, the semantics of Python's
`needle in hay`. -/
def charsContain (needle : List Char) : List Char → Bool
  | [] => needle.isEmpty
  | c :: rest => needle.isPrefixOf (c :: rest) || charsContain needle rest

/-- `needle in hay` on strings. -/
def strContains (hay needle : String) : Bool :=
  charsContain needle.toList hay.toList

/-- The class filter of line 60: `lambda x: x and ('job' in x.lower() or
'position' in x.lower())`, applied to one class token.  (An empty token is
falsy in Python and also yields `false` here, since the empty string contains
neither needle.) -/
def isJobClass (x : String) : Bool :=
  strContains (lower x) "job" || strContains (lower x) "position"

/-- Whether `find_all(['div', 'li'], class_=...)` (line 60) selects an
element: tag is div or li and some class token passes the class filter. -/
def isJobElement (e : Element) : Bool :=
  (e.tag == "div" || e.tag == "li") && e.classes.any isJobClass

/-- Whether `find_all(['h1', 'h2', 'h3'], limit=3)` (line 96) selects an
element: tag is one of the three heading tags. -/
def isHeading (e : Element) : Bool :=
  e.tag == "h1" || e.tag == "h2" || e.tag == "h3"

/-- The careers URL built on line 51 of `job_scout` (the same template the
planner uses on line 32). -/
def careersUrl (competitor : String) : String :=
  "https://www." ++ lower competitor ++ ".com/careers"

/-- The blog URL built on line 87 of `news_hunter` (the same template the
planner uses on line 33). -/
def blogUrl (competitor : String) : String :=
  "https://www." ++ lower competitor ++ ".com/blog"

/-- `intelligence_planner` (lines 25-40): writes the three target URLs
derived from the competitor name, lower-cased into a fixed template. -/
def intelligence_planner (state : IntelState) : IntelState :=
  let competitor := state.competitor
  let target_urls :=
    [ "https://www." ++ lower competitor ++ ".com/careers",
      "https://www." ++ lower competitor ++ ".com/blog",
      "https://www." ++ lower competitor ++ ".com/changelog" ]
  { state with target_urls := target_urls }

/-- `job_scout` (lines 42-76): fetches the careers URL; on success selects
job/position-classed div/li elements, keeps the first three, filters each to
non-empty text longer than 10 chars, truncates titles to 100 chars; on any
exception sets `job_data` to the empty list. -/
def job_scout (fetch : Fetcher) (state : IntelState) : IntelState :=
  let competitor := state.competitor
  let careers_url := careersUrl competitor
  match fetch careers_url with
  | none => { state with job_data := [] }
  | some soup =>
    let job_elements := soup.filter isJobElement
    let job_data := (job_elements.take 3).filterMap fun job =>
      let title := job.text
      if title ≠ "" ∧ title.length > 10 then
        some { title := strTake title 100, source := "careers_page" }
      else
        none
    { state with job_data := job_data }

/-- `news_hunter` (lines 78-112): fetches the blog URL; on success selects
the first three h1/h2/h3 elements (`limit=3`), filters each to non-empty text
longer than 10 chars, truncates titles to 100 chars; on any exception sets
`news_data` to the empty list. -/
def news_hunter (fetch : Fetcher) (state : IntelState) : IntelState :=
  let competitor := state.competitor
  let blog_url := blogUrl competitor
  match fetch blog_url with
  | none => { state with news_data := [] }
  | some soup =>
    let articles := (soup.filter isHeading).take 3
    let news_data := articles.filterMap fun article =>
      let title := article.text
      if title ≠ "" ∧ title.length > 10 then
        some { title := strTake title 100, source := "blog" }
      else
        none
    { state with news_data := news_data }

/-- `insight_generator` (lines 114-124): a fixed "no data" message when both
gathered lists are empty, else a fixed placeholder. -/
def insight_generator (state : IntelState) : IntelState :=
  if state.job_data.isEmpty && state.news_data.isEmpty then
    { state with insights := "No data available for analysis" }
  else
    { state with
        insights := "Basic scraping completed - limited insights available without MCP" }

/-- `dashboard_builder` (lines 126-164): renders the report on the console (a
side effect outside the model) and returns the state unchanged (line 164). -/
def dashboard_builder (state : IntelState) : IntelState :=
  state

/-- langgraph's END sentinel. -/
def END_NODE : String := "__end__"

/-- The `add_node` calls of `create_workflow` (lines 171-175). -/
def workflow_nodes (fetch : Fetcher) : List (String × (IntelState → IntelState)) :=
  [ ("planner", intelligence_planner),
    ("jobs", job_scout fetch),
    ("news", news_hunter fetch),
    ("insight_gen", insight_generator),
    ("dashboard", dashboard_builder) ]

/-- The `set_entry_point` call of `create_workflow` (line 178). -/
def entry_point : String := "planner"

/-- The `add_edge` calls of `create_workflow` (lines 179-183). -/
def workflow_edges : List (String × String) :=
  [ ("planner", "jobs"),
    ("jobs", "news"),
    ("news", "insight_gen"),
    ("insight_gen", "dashboard"),
    ("dashboard", END_NODE) ]

/-- Execution of the compiled graph: starting from a node, run its function
and follow the unique outgoing edge until END (fuel-indexed; the graph is a
finite chain, so enough fuel reaches END). -/
def runGraph (fetch : Fetcher) : Nat → String → IntelState → IntelState
  | 0, _, state => state
  | fuel + 1, node, state =>
    if node == END_NODE then state
    else
      match (workflow_nodes fetch).lookup node with
      | none => state
      | some f =>
        let state' := f state
        match workflow_edges.lookup node with
        | none => state'
        | some next => runGraph fetch fuel next state'

/-- `app.invoke` on the compiled workflow (line 210): run the graph from the
entry point.  Fuel 6 covers the five nodes and the END step. -/
def invoke (fetch : Fetcher) (state : IntelState) : IntelState :=
  runGraph fetch 6 entry_point state

/-- The initial state built by `main` (lines 201-208). -/
def initial_state (competitor : String) : IntelState :=
  { competitor := competitor
    target_urls := []
    job_data := []
    news_data := []
    insights := ""
    use_mcp := false }

/-- One full run of the agent on a competitor name: build the initial state
and invoke the compiled workflow (lines 199-210). -/
def run_agent (fetch : Fetcher) (competitor : String) : IntelState :=
  invoke fetch (initial_state competitor)

/-- The plain sequential composition of the five stage functions, in the
order fixed by the edges. -/
def run_sequential (fetch : Fetcher) (state : IntelState) : IntelState :=
  dashboard_builder (insight_generator (news_hunter fetch (job_scout fetch (intelligence_planner state))))

/-- Every state the pipeline passes through during one run: the initial
state and the output of each of the five stages, in execution order. -/
def pipeline_states (fetch : Fetcher) (competitor : String) : List IntelState :=
  let s0 := initial_state competitor
  let s1 := intelligence_planner s0
  let s2 := job_scout fetch s1
  let s3 := news_hunter fetch s2
  let s4 := insight_generator s3
  let s5 := dashboard_builder s4
  [s0, s1, s2, s3, s4, s5]

/-! ### Closed forms of the stages and of a whole run -/

/-- What `job_scout` stores in `job_data`, as a function of the fetch outcome
alone. -/
def job_extract : Option Doc → List ScrapedEntry
  | none => []
  | some soup =>
    ((soup.filter isJobElement).take 3).filterMap fun job =>
      if job.text ≠ "" ∧ job.text.length > 10 then
        some { title := strTake job.text 100, source := "careers_page" }
      else
        none

/-- What `news_hunter` stores in `news_data`, as a function of the fetch
outcome alone. -/
def news_extract : Option Doc → List ScrapedEntry
  | none => []
  | some soup =>
    ((soup.filter isHeading).take 3).filterMap fun article =>
      if article.text ≠ "" ∧ article.text.length > 10 then
        some { title := strTake article.text 100, source := "blog" }
      else
        none

theorem job_scout_eq (fetch : Fetcher) (s : IntelState) :
    job_scout fetch s =
      { s with job_data := job_extract (fetch (careersUrl s.competitor)) } := by
  cases h : fetch (careersUrl s.competitor) <;> simp [job_scout, job_extract, h]

theorem news_hunter_eq (fetch : Fetcher) (s : IntelState) :
    news_hunter fetch s =
      { s with news_data := news_extract (fetch (blogUrl s.competitor)) } := by
  cases h : fetch (blogUrl s.competitor) <;> simp [news_hunter, news_extract, h]

theorem insight_generator_eq (s : IntelState) :
    insight_generator s =
      { s with insights :=
          if s.job_data = [] ∧ s.news_data = [] then
            "No data available for analysis"
          else
            "Basic scraping completed - limited insights available without MCP" } := by
  cases hj : s.job_data <;> cases hn : s.news_data <;>
    simp [insight_generator, hj, hn]

theorem run_agent_unfold (fetch : Fetcher) (competitor : String) :
    run_agent fetch competitor =
      dashboard_builder (insight_generator (news_hunter fetch
        (job_scout fetch (intelligence_planner (initial_state competitor))))) := rfl

/-- The final state of a full run, in closed form. -/
theorem run_agent_closed (fetch : Fetcher) (competitor : String) :
    run_agent fetch competitor =
      { competitor := competitor
        target_urls :=
          [ "https://www." ++ lower competitor ++ ".com/careers",
            "https://www." ++ lower competitor ++ ".com/blog",
            "https://www." ++ lower competitor ++ ".com/changelog" ]
        job_data := job_extract (fetch (careersUrl competitor))
        news_data := news_extract (fetch (blogUrl competitor))
        insights :=
          if job_extract (fetch (careersUrl competitor)) = [] ∧
              news_extract (fetch (blogUrl competitor)) = [] then
            "No data available for analysis"
          else
            "Basic scraping completed - limited insights available without MCP"
        use_mcp := false } := by
  rw [run_agent_unfold, job_scout_eq, news_hunter_eq, insight_generator_eq]
  rfl

/-! ### Bounds on the extracted snippets -/

theorem strTake_eq_take (s : String) (n : Nat) : strTake s n = s.take n :=
  (String.take_eq s n).symm

theorem strTake_length_le (s : String) (n : Nat) : (strTake s n).length ≤ n :=
  List.length_take_le ..

theorem length_filterMap_if (p : Element → Prop) [DecidablePred p]
    (g : Element → ScrapedEntry) (l : List Element) (h : ∀ a ∈ l, p a) :
    (l.filterMap fun a => if p a then some (g a) else none).length = l.length := by
  induction l with
  | nil => rfl
  | cons a l ih =>
    rw [List.filterMap_cons, if_pos (h a (List.mem_cons_self a l))]
    simp [ih fun b hb => h b (List.mem_cons_of_mem a hb)]

theorem job_extract_length_le (r : Option Doc) : (job_extract r).length ≤ 3 := by
  cases r with
  | none => simp [job_extract]
  | some soup =>
    simp only [job_extract]
    exact Nat.le_trans (List.length_filterMap_le _ _) (List.length_take_le _ _)

theorem news_extract_length_le (r : Option Doc) : (news_extract r).length ≤ 3 := by
  cases r with
  | none => simp [news_extract]
  | some soup =>
    simp only [news_extract]
    exact Nat.le_trans (List.length_filterMap_le _ _) (List.length_take_le _ _)

theorem job_extract_mem (r : Option Doc) (e : ScrapedEntry) (he : e ∈ job_extract r) :
    e.title.length ≤ 100 ∧ e.source = "careers_page" ∧
      ∃ src : String, 10 < src.length ∧ e.title = strTake src 100 := by
  cases r with
  | none => simp [job_extract] at he
  | some soup =>
    simp only [job_extract] at he
    rcases List.mem_filterMap.mp he with ⟨job, _, hsome⟩
    by_cases hc : job.text ≠ "" ∧ job.text.length > 10
    · rw [if_pos hc] at hsome
      cases hsome
      exact ⟨strTake_length_le job.text 100, rfl, job.text, hc.2, rfl⟩
    · rw [if_neg hc] at hsome
      cases hsome

theorem news_extract_mem (r : Option Doc) (e : ScrapedEntry) (he : e ∈ news_extract r) :
    e.title.length ≤ 100 ∧ e.source = "blog" ∧
      ∃ src : String, 10 < src.length ∧ e.title = strTake src 100 := by
  cases r with
  | none => simp [news_extract] at he
  | some soup =>
    simp only [news_extract] at he
    rcases List.mem_filterMap.mp he with ⟨article, _, hsome⟩
    by_cases hc : article.text ≠ "" ∧ article.text.length > 10
    · rw [if_pos hc] at hsome
      cases hsome
      exact ⟨strTake_length_le article.text 100, rfl, article.text, hc.2, rfl⟩
    · rw [if_neg hc] at hsome
      cases hsome

theorem blogUrl_ne_careersUrl (competitor : String) :
    blogUrl competitor ≠ careersUrl competitor := by
  intro h
  have h9 : (".com/blog" : String).length = 9 := rfl
  have h12 : (".com/careers" : String).length = 12 := rfl
  have h' := congrArg String.length h
  rw [blogUrl, careersUrl, String.length_append, String.length_append,
    String.length_append, String.length_append, h9, h12] at h'
  omega

/-! ### Concrete fixtures used by witnesses and counterexamples -/

/-- A careers page with a single qualifying job listing. -/
def demo_jobs_doc : Doc :=
  [ { tag := "div", classes := ["job-listing"], text := "Senior Software Engineer" } ]

/-- A blog page with a single qualifying headline. -/
def demo_blog_doc : Doc :=
  [ { tag := "h2", classes := [], text := "Acme launches new analytics platform" } ]

/-- A fetcher whose careers fetch for acme succeeds with one job listing and
whose every other fetch (the blog fetch included) fails. -/
def fetch_with_jobs : Fetcher := fun url =>
  if url = "https://www.acme.com/careers" then some demo_jobs_doc else none

/-- A fetcher for which every fetch fails.  It agrees with `fetch_with_jobs`
on every URL other than the acme careers URL. -/
def all_fail_fetch : Fetcher := fun _ => none

/-- A fetcher succeeding on both acme URLs. -/
def demo_fetch : Fetcher := fun url =>
  if url = "https://www.acme.com/careers" then some demo_jobs_doc
  else if url = "https://www.acme.com/blog" then some demo_blog_doc
  else none

/-- A careers page whose first job-classed element has short text, followed by
three qualifying job-classed elements. -/
def short_first_doc : Doc :=
  [ { tag := "div", classes := ["job"], text := "Jobs" },
    { tag := "div", classes := ["job"], text := "Senior Software Engineer I" },
    { tag := "div", classes := ["job"], text := "Senior Software Engineer II" },
    { tag := "div", classes := ["job"], text := "Senior Software Engineer III" } ]

/-- A fetcher returning `short_first_doc` for the acme careers URL. -/
def short_first_fetch : Fetcher := fun url =>
  if url = "https://www.acme.com/careers" then some short_first_doc else none

/-! ### Claims -/

/-- C1: for every fetch behavior and every subject the run completes and
returns a final state whose insight is one of the two fixed messages (a
complete, possibly sparse, report), and in the worst case, where every fetch
fails, the final state is the degraded one: planned targets, empty job and
news lists, and the no-data insight.  Totality of `run_agent` is the model of
"never raises past its own boundary". -/
theorem pipeline_always_completes (fetch : Fetcher) (competitor : String) :
    ((run_agent fetch competitor).insights = "No data available for analysis" ∨
      (run_agent fetch competitor).insights =
        "Basic scraping completed - limited insights available without MCP") ∧
    run_agent (fun _ => none) competitor =
      { competitor := competitor
        target_urls :=
          [ "https://www." ++ lower competitor ++ ".com/careers",
            "https://www." ++ lower competitor ++ ".com/blog",
            "https://www." ++ lower competitor ++ ".com/changelog" ]
        job_data := []
        news_data := []
        insights := "No data available for analysis"
        use_mcp := false } := by
  constructor
  · by_cases hc : job_extract (fetch (careersUrl competitor)) = [] ∧
        news_extract (fetch (blogUrl competitor)) = []
    · left
      rw [run_agent_closed]
      simp [hc]
    · right
      rw [run_agent_closed]
      simp [hc]
  · rfl

/-- C3: after the planning stage the targets field is exactly the three URLs
obtained by interpolating the lower-cased subject into the fixed careers,
blog and changelog templates; the stage is a pure function of the subject
with no failure modes. -/
theorem planner_three_targets (s : IntelState) :
    (intelligence_planner s).target_urls =
      [ "https://www." ++ lower s.competitor ++ ".com/careers",
        "https://www." ++ lower s.competitor ++ ".com/blog",
        "https://www." ++ lower s.competitor ++ ".com/changelog" ] ∧
    (intelligence_planner s).target_urls.length = 3 :=
  ⟨rfl, rfl⟩

/-- C4: the synthesize-insight stage writes the fixed no-data message when
both gathered lists are empty and the fixed placeholder otherwise; the
insight text is never derived from the gathered content. -/
theorem insight_fixed_messages (s : IntelState) :
    (insight_generator s).insights =
      if s.job_data = [] ∧ s.news_data = [] then
        "No data available for analysis"
      else
        "Basic scraping completed - limited insights available without MCP" := by
  rw [insight_generator_eq]

/-- C5: every run terminates (run_agent is total) with a final state whose
subject equals the input subject, and no single stage mutates the subject
field. -/
theorem run_preserves_subject (fetch : Fetcher) (competitor : String) (s : IntelState) :
    (run_agent fetch competitor).competitor = competitor ∧
    (intelligence_planner s).competitor = s.competitor ∧
    (job_scout fetch s).competitor = s.competitor ∧
    (news_hunter fetch s).competitor = s.competitor ∧
    (insight_generator s).competitor = s.competitor ∧
    (dashboard_builder s).competitor = s.competitor := by
  refine ⟨?_, rfl, ?_, ?_, ?_, rfl⟩
  · rw [run_agent_closed]
  · rw [job_scout_eq]
  · rw [news_hunter_eq]
  · rw [insight_generator_eq]

/-- C7: running the compiled graph from its entry point is extensionally
equal to the plain sequential composition of the five stage functions in the
order plan, scout-jobs, scout-news, synthesize-insight, report. -/
theorem graph_equals_sequential (fetch : Fetcher) (s : IntelState) :
    invoke fetch s = run_sequential fetch s := rfl

/-- C10: the careers URL that `job_scout` fetches is the first element of the
planner's targets and the blog URL that `news_hunter` fetches is the second:
the recomputation in the scouting stages coincides with the planner's
template. -/
theorem scout_urls_match_plan (s : IntelState) :
    (intelligence_planner s).target_urls.get? 0 = some (careersUrl s.competitor) ∧
    (intelligence_planner s).target_urls.get? 1 = some (blogUrl s.competitor) :=
  ⟨rfl, rfl⟩

/-- C2 counterexample: `all_fail_fetch` is exactly `fetch_with_jobs` with the
careers fetch failing (the two agree on every other URL, the blog URL
included), yet the two runs produce different synthesize-insight outputs, so
the insight stage's output is affected by the careers fetch failure. -/
theorem careers_failure_changes_insight :
    all_fail_fetch (blogUrl "Acme") = fetch_with_jobs (blogUrl "Acme") ∧
    all_fail_fetch (careersUrl "Acme") = none ∧
    fetch_with_jobs (careersUrl "Acme") ≠ none ∧
    (run_agent all_fail_fetch "Acme").insights ≠
      (run_agent fetch_with_jobs "Acme").insights := by
  decide

/-- C2 (amended): if the careers fetch fails, `job_data` is the empty list
(without throwing), the run still executes scout-news — whose output is
unaffected by the failure: it equals the output of any run whose fetcher
agrees on every URL other than the careers URL — and synthesize-insight and
report still execute, computing the insight from the degraded (empty jobs)
state. -/
theorem careers_failure_isolated (f g : Fetcher) (competitor : String)
    (hf : f (careersUrl competitor) = none)
    (hagree : ∀ url, url ≠ careersUrl competitor → f url = g url) :
    (run_agent f competitor).job_data = [] ∧
    (run_agent f competitor).news_data = (run_agent g competitor).news_data ∧
    (run_agent f competitor).insights =
      (if (run_agent f competitor).news_data = [] then
        "No data available for analysis"
      else
        "Basic scraping completed - limited insights available without MCP") := by
  have hblog : f (blogUrl competitor) = g (blogUrl competitor) :=
    hagree _ (blogUrl_ne_careersUrl competitor)
  rw [run_agent_closed f competitor, run_agent_closed g competitor]
  simp [hf, hblog, job_extract]

/-- Witness for the amended C2: instantiated with the all-failing fetcher
against the fetcher that succeeds only on the careers URL. -/
theorem careers_failure_isolated_witness :
    (run_agent all_fail_fetch "Acme").job_data = [] ∧
    (run_agent all_fail_fetch "Acme").news_data =
      (run_agent fetch_with_jobs "Acme").news_data ∧
    (run_agent all_fail_fetch "Acme").insights =
      (if (run_agent all_fail_fetch "Acme").news_data = [] then
        "No data available for analysis"
      else
        "Basic scraping completed - limited insights available without MCP") := by
  have hcu : careersUrl "Acme" = "https://www.acme.com/careers" := by decide
  refine careers_failure_isolated all_fail_fetch fetch_with_jobs "Acme" rfl ?_
  intro url h
  rw [hcu] at h
  exact (if_neg h).symm

/-- C6: in every run each of `job_data` and `news_data` holds at most 3
snippets, every snippet's title is at most 100 characters long, and every
snippet comes from a source text longer than 10 characters (pre-truncation),
of which the title is the 100-character prefix. -/
theorem snippet_bounds (fetch : Fetcher) (competitor : String) :
    (run_agent fetch competitor).job_data.length ≤ 3 ∧
    (run_agent fetch competitor).news_data.length ≤ 3 ∧
    (∀ e ∈ (run_agent fetch competitor).job_data,
      e.title.length ≤ 100 ∧
        ∃ src : String, 10 < src.length ∧ e.title = strTake src 100) ∧
    (∀ e ∈ (run_agent fetch competitor).news_data,
      e.title.length ≤ 100 ∧
        ∃ src : String, 10 < src.length ∧ e.title = strTake src 100) := by
  rw [run_agent_closed]
  refine ⟨job_extract_length_le _, news_extract_length_le _, ?_, ?_⟩
  · intro e he
    obtain ⟨h1, _, h3⟩ := job_extract_mem _ e he
    exact ⟨h1, h3⟩
  · intro e he
    obtain ⟨h1, _, h3⟩ := news_extract_mem _ e he
    exact ⟨h1, h3⟩

/-- Witness for C6: the bounds instantiated on a run that gathers one job
snippet and one news snippet, with the membership hypotheses discharged on
those concrete snippets. -/
theorem snippet_bounds_witness :
    (run_agent demo_fetch "Acme").job_data.length ≤ 3 ∧
    ({ title := "Senior Software Engineer",
       source := "careers_page" } : ScrapedEntry).title.length ≤ 100 ∧
    ({ title := "Acme launches new analytics platform",
       source := "blog" } : ScrapedEntry).title.length ≤ 100 := by
  refine ⟨(snippet_bounds demo_fetch "Acme").1, ?_, ?_⟩
  · exact ((snippet_bounds demo_fetch "Acme").2.2.1 _ (by decide)).1
  · exact ((snippet_bounds demo_fetch "Acme").2.2.2 _ (by decide)).1

/-- C8 counterexample: `short_first_doc` contains three qualifying job-like
elements (job-classed, text longer than 10 characters), yet the run extracts
only 2 entries, because the code slices to the first three matched elements
before applying the length filter and the first matched element is short. -/
theorem three_qualifying_not_three_entries :
    (short_first_doc.filter fun e =>
      isJobElement e && decide (10 < e.text.length)).length = 3 ∧
    (run_agent short_first_fetch "Acme").job_data.length = 2 := by
  decide

/-- C8 (amended): for subject Acme, if the careers fetch succeeds and the
first three job/position-classed elements of the document all have non-empty
text longer than 10 characters (and at least three such elements exist),
then `job_data` has exactly 3 entries, each with title at most 100 characters
and source careers_page. -/
theorem first_three_jobs_give_three_entries (fetch : Fetcher) (doc : Doc)
    (hf : fetch (careersUrl "Acme") = some doc)
    (h3 : ((doc.filter isJobElement).take 3).length = 3)
    (hq : ∀ e ∈ (doc.filter isJobElement).take 3,
      e.text ≠ "" ∧ e.text.length > 10) :
    (run_agent fetch "Acme").job_data.length = 3 ∧
    ∀ e ∈ (run_agent fetch "Acme").job_data,
      e.title.length ≤ 100 ∧ e.source = "careers_page" := by
  have hlen := length_filterMap_if (fun job => job.text ≠ "" ∧ job.text.length > 10) (fun job => ({ title := strTake job.text 100, source := "careers_page" } : ScrapedEntry)) ((doc.filter isJobElement).take 3) hq
  rw [run_agent_closed, hf]
  constructor
  · show (job_extract (some doc)).length = 3
    simp only [job_extract]
    rw [hlen, h3]
  · intro e he
    obtain ⟨h1, h2, _⟩ := job_extract_mem (some doc) e he
    exact ⟨h1, h2⟩

/-- A careers page with exactly three qualifying job-like elements. -/
def three_jobs_doc : Doc :=
  [ { tag := "div", classes := ["job"], text := "Senior Software Engineer I" },
    { tag := "li", classes := ["position"], text := "Staff Product Manager" },
    { tag := "div", classes := ["job-posting"],
      text := "Engineering Manager, Platform" } ]

/-- A fetcher returning `three_jobs_doc` for the acme careers URL. -/
def three_jobs_fetch : Fetcher := fun url =>
  if url = "https://www.acme.com/careers" then some three_jobs_doc else none

/-- Witness for the amended C8: instantiated on a concrete document with
exactly three qualifying job elements. -/
theorem first_three_jobs_witness :
    (run_agent three_jobs_fetch "Acme").job_data.length = 3 :=
  (first_three_jobs_give_three_entries three_jobs_fetch three_jobs_doc
    (by decide) (by decide) (by decide)).1

/-- C9 counterexample: the pipeline accepts the empty subject (the CLI only
requires the argument to be present, not non-empty), and then every state
reachable during the run — all six of them — has an empty subject, refuting
unconditional non-emptiness. -/
theorem empty_subject_reachable :
    (pipeline_states all_fail_fetch "").length = 6 ∧
    ((pipeline_states all_fail_fetch "").all fun st => st.competitor == "") = true := by
  decide

/-- C9 (amended): the subject is immutable — every state reachable during a
run has its subject equal to the one supplied at initialization — and it is
non-empty whenever the supplied identifier is non-empty (the code itself
does not reject an empty identifier). -/
theorem subject_immutable (fetch : Fetcher) (competitor : String)
    (st : IntelState) (hst : st ∈ pipeline_states fetch competitor) :
    st.competitor = competitor ∧ (competitor ≠ "" → st.competitor ≠ "") := by
  have hc : st.competitor = competitor := by
    simp only [pipeline_states, List.mem_cons, List.not_mem_nil, or_false] at hst
    rcases hst with rfl | rfl | rfl | rfl | rfl | rfl
    · rfl
    · rfl
    · rw [job_scout_eq]
      rfl
    · rw [news_hunter_eq, job_scout_eq]
      rfl
    · rw [insight_generator_eq, news_hunter_eq, job_scout_eq]
      rfl
    · rw [insight_generator_eq, news_hunter_eq, job_scout_eq]
      rfl
  refine ⟨hc, fun hne => ?_⟩
  rw [hc]
  exact hne

/-- Witness for the amended C9: instantiated on the initial state of a
concrete run. -/
theorem subject_immutable_witness :
    (initial_state "Acme").competitor = "Acme" ∧
      ("Acme" ≠ "" → (initial_state "Acme").competitor ≠ "") :=
  subject_immutable all_fail_fetch "Acme" (initial_state "Acme") (by decide)

end IntelAgent
